import Mathlib

/-!
Verification of the banker-agent Deal-or-No-Deal negotiation engine.

This file gives a shallow embedding of:
  * the configuration tables of `metta/knowledge.py`
    (house-edge, sentiment and variance multipliers);
  * the offer pipeline of `metta/utils.py`
    (`ai_decide_response_type`, `generate_banker_response`,
     `process_banker_query`);
  * the REST handlers of `banker_api_server.py`
    (`start_game`, `chat_with_banker`, `update_game_state`).

The external LLM is modelled by an oracle record of its observable
answers; `none` in an oracle field models the underlying call raising an
exception (timeout, network failure, malformed object access), which in
the Python source propagates up to the enclosing try/except of the REST
handler.  `rag.calculate_base_offer` lives in `metta/banker_rag.py`,
which is absent from the source tree; it is modelled from the spec
(section 4.4), as is the round-band mapping (whose bands are also
documented by comments in `metta/knowledge.py`).  Timestamps and the
wire formatting of banker messages are abstracted: a banker message is
an inductive value recording the constructor-relevant data of each
f-string of the source.
-/

/-- Sentiment classes produced by sentiment analysis
(`metta/knowledge.py` sentiment_multiplier table). -/
inductive Sentiment
  | confident
  | desperate
  | neutral
  | aggressive
deriving DecidableEq

/-- Variance classes of the remaining-amount distribution
(`metta/knowledge.py` risk_adjustment table). -/
inductive Variance
  | high
  | medium
  | low
deriving DecidableEq

/-- Symbolic key of a sentiment class, as used in the knowledge table. -/
def sentimentKey : Sentiment → String
  | .confident => "confident"
  | .desperate => "desperate"
  | .neutral => "neutral"
  | .aggressive => "aggressive"

/-- Symbolic key of a variance class, as used in the knowledge table. -/
def varianceKey : Variance → String
  | .high => "high_variance"
  | .medium => "medium_variance"
  | .low => "low_variance"

/-- The numeric atoms added to the MeTTa space by
`initialize_banker_knowledge` (`metta/knowledge.py`, lines 8-21):
(table, key, value) triples. -/
def bankerKnowledgeTable : List (String × String × ℚ) :=
  [ ("house_edge", "early_round", 65/100),        -- rounds 1-2
    ("house_edge", "mid_round", 75/100),          -- rounds 3-4
    ("house_edge", "late_round", 85/100),         -- rounds 5+
    ("sentiment_multiplier", "confident", 105/100),
    ("sentiment_multiplier", "desperate", 95/100),
    ("sentiment_multiplier", "neutral", 1),
    ("sentiment_multiplier", "aggressive", 90/100),
    ("risk_adjustment", "high_variance", 90/100),
    ("risk_adjustment", "low_variance", 105/100),
    ("risk_adjustment", "medium_variance", 1) ]

/-- Lookup of a (table, key) pair in the knowledge store. -/
def lookupKnowledge (table key : String) : Option ℚ :=
  (bankerKnowledgeTable.find? (fun t => t.1 = table && t.2.1 = key)).map (·.2.2)

/-- Modelled from the spec: the round→band mapping used by the Offer
Calculator (`metta/banker_rag.py` is absent from the source tree);
rounds 1-2 are early, 3-4 mid, 5 and above late, matching both spec
section 4.1 and the comments in `metta/knowledge.py`. -/
def roundBand (r : ℕ) : String :=
  if r ≤ 2 then "early_round" else if r ≤ 4 then "mid_round" else "late_round"

/-- House-edge multiplier for a round, read from the knowledge table. -/
def houseEdgeMultiplier (r : ℕ) : ℚ :=
  (lookupKnowledge "house_edge" (roundBand r)).getD 1

/-- Sentiment multiplier, read from the knowledge table. -/
def sentimentMultiplier (s : Sentiment) : ℚ :=
  (lookupKnowledge "sentiment_multiplier" (sentimentKey s)).getD 1

/-- Variance multiplier, read from the knowledge table. -/
def varianceMultiplier (v : Variance) : ℚ :=
  (lookupKnowledge "risk_adjustment" (varianceKey v)).getD 1

/-- Expected value of the remaining amounts: their arithmetic mean
(spec section 4.2; the empty case is a caller contract violation and
yields the junk value 0 here). -/
def ev (remaining : List ℕ) : ℚ :=
  (remaining.sum : ℚ) / (remaining.length : ℚ)

/-- Result record of the Offer Calculator, the fields of
`offer_data` consumed by `metta/utils.py`. -/
structure OfferData where
  offer : ℤ
  expectedValue : ℚ
  houseEdge : ℚ
deriving DecidableEq

/-- Modelled from the spec: the unclamped offer value of
`rag.calculate_base_offer` (`metta/banker_rag.py` is absent from the
source tree), spec section 4.4:
`round(EV × houseEdgeMultiplier × sentimentMultiplier × varianceMultiplier)`. -/
def rawOffer (remaining : List ℕ) (roundNum : ℕ) (s : Sentiment) (v : Variance) : ℤ :=
  round (ev remaining * houseEdgeMultiplier roundNum *
    sentimentMultiplier s * varianceMultiplier v)

/-- Modelled from the spec: the clamp of section 4.4 — if the raw value
is at or above EV, clamp to "EV − 1" (the largest integer strictly
below EV, which is `⌈EV⌉ - 1`), floored at 1. -/
def clampOffer (e : ℚ) (raw : ℤ) : ℤ :=
  if e ≤ (raw : ℚ) then max 1 (⌈e⌉ - 1) else raw

/-- Modelled from the spec: `rag.calculate_base_offer`
(`metta/banker_rag.py` is absent from the source tree).  Spec section
4.4 gives the offer formula with clamping; the reported house edge is
`1 − multiplier` (spec section 4.1). -/
def calculateBaseOffer (remaining : List ℕ) (roundNum : ℕ)
    (s : Sentiment) (v : Variance) : OfferData :=
  { offer := clampOffer (ev remaining) (rawOffer remaining roundNum s v),
    expectedValue := ev remaining,
    houseEdge := 1 - houseEdgeMultiplier roundNum }

-- Concrete values of the configuration lookups, for reuse in evaluations.
lemma houseEdgeMultiplier_early {r : ℕ} (h : r ≤ 2) : houseEdgeMultiplier r = 65/100 := by
  simp [houseEdgeMultiplier, roundBand, lookupKnowledge, bankerKnowledgeTable, List.find?, h]

lemma houseEdgeMultiplier_mid {r : ℕ} (h3 : 3 ≤ r) (h4 : r ≤ 4) :
    houseEdgeMultiplier r = 75/100 := by
  simp [houseEdgeMultiplier, roundBand, lookupKnowledge, bankerKnowledgeTable, List.find?,
    Nat.not_le.mpr (by omega : 2 < r), h4]

lemma houseEdgeMultiplier_late {r : ℕ} (h : 5 ≤ r) : houseEdgeMultiplier r = 85/100 := by
  simp [houseEdgeMultiplier, roundBand, lookupKnowledge, bankerKnowledgeTable, List.find?,
    Nat.not_le.mpr (by omega : 2 < r), Nat.not_le.mpr (by omega : 4 < r)]

lemma sentimentMultiplier_eval :
    sentimentMultiplier .confident = 105/100 ∧ sentimentMultiplier .desperate = 95/100 ∧
    sentimentMultiplier .neutral = 1 ∧ sentimentMultiplier .aggressive = 90/100 := by
  refine ⟨?_, ?_, ?_, ?_⟩ <;>
    simp [sentimentMultiplier, sentimentKey, lookupKnowledge, bankerKnowledgeTable, List.find?]

lemma varianceMultiplier_eval :
    varianceMultiplier .high = 90/100 ∧ varianceMultiplier .medium = 1 ∧
    varianceMultiplier .low = 105/100 := by
  refine ⟨?_, ?_, ?_⟩ <;>
    simp [varianceMultiplier, varianceKey, lookupKnowledge, bankerKnowledgeTable, List.find?]

/-! ### The LLM oracle and the dialogue pipeline of `metta/utils.py` -/

/-- The observable behaviour of the external LLM and of the absent
`BankerRAG` classifiers during one engine call.  A `none` in a reply
field models the underlying call raising an exception (timeout, network
error, or — for the generator — a parsed reply that is not an object
with the expected keys); in the Python source such an exception
propagates to the enclosing try/except of the REST handler.  The
sentiment and variance classifications (`rag.analyze_user_behavior` and
the variance bucketing inside `rag.calculate_base_offer`, both in the
absent `metta/banker_rag.py`) are modelled as total results, following
spec section 6 (unknown/failed classifications degrade to a label). -/
structure Oracle where
  /-- Raw LLM reply inside `ai_decide_response_type`. -/
  intentReply : Option String
  /-- Result of `rag.analyze_user_behavior(user_message)`. -/
  sentiment : Sentiment
  /-- Variance class used by the Offer Calculator. -/
  variance : Variance
  /-- Reply inside `generate_banker_response`: `some none` is a reply
  that fails JSON parsing (triggering the fallback dict), and
  `some (some (m, o))` is a parsed `{"message": m, "offer": o}`. -/
  genReply : Option (Option (String × ℤ))
  /-- Raw LLM reply inside `generate_conversational_response`. -/
  convReply : Option String

/-- Python `str.strip()` on a character list. -/
def pyStrip (l : List Char) : List Char :=
  ((l.dropWhile Char.isWhitespace).reverse.dropWhile Char.isWhitespace).reverse

/-- Python `str.upper()` on a character list. -/
def pyUpper (l : List Char) : List Char := l.map Char.toUpper

/-- Python `str.lower()` applied to a message string. -/
def pyLower (s : String) : List Char := s.toList.map Char.toLower

/-- `needle` occurs at the head of `hay`. -/
def headSegment : List Char → List Char → Bool
  | [], _ => true
  | _ :: _, [] => false
  | a :: as, b :: bs => a == b && headSegment as bs

/-- Python `needle in hay` substring test on character lists. -/
def isSubstring (needle hay : List Char) : Bool :=
  hay.tails.any (fun t => headSegment needle t)

/-- `ai_decide_response_type` (`metta/utils.py`, lines 105-138): the raw
LLM reply is stripped and upper-cased; anything other than the exact
labels OFFER/CONVERSATION falls back to CONVERSATION.  `none` models the
LLM call raising (the exception propagates). -/
def aiDecideResponseType (intentReply : Option String) : Option String :=
  match intentReply with
  | none => none
  | some r =>
    let d := pyUpper (pyStrip r.toList)
    if d = "OFFER".toList || d = "CONVERSATION".toList then some (String.mk d)
    else some "CONVERSATION"

/-- `generate_banker_response` (`metta/utils.py`, lines 31-103): returns
the parsed `{message, offer}` object, or on a JSON parse failure the
fallback dict whose offer is the calculated one.  `none` models the LLM
call (or the subsequent key access) raising. -/
def generateBankerResponse (genReply : Option (Option (String × ℤ)))
    (offerData : OfferData) : Option (String × ℤ) :=
  match genReply with
  | none => none
  | some none =>
    some ("My offer is $" ++ toString offerData.offer ++ ". Take it or leave it.", offerData.offer)
  | some (some (m, o)) => some (m, o)

/-- The dict returned by `process_banker_query`
(`metta/utils.py`, lines 191-247), flattened: `gs_` fields are the
nested `game_state` dict. -/
structure QueryResponse where
  selected_question : String
  humanized_answer : String
  offer : Option ℤ
  gs_round : ℕ
  gs_remaining : List ℕ
  gs_expected_value : Option ℚ
  gs_house_edge : Option ℚ
  gs_sentiment : Option String
deriving DecidableEq

/-- `process_banker_query` (`metta/utils.py`, lines 191-247).  The AI
decides OFFER vs CONVERSATION; on OFFER the authoritative amount is the
calculated one — line 215 overwrites the generator's echoed offer
(`banker_response['offer'] = offer_data['offer']`).  The `burnt` cards
are only forwarded to `rag.update_game_state` (a side effect on the
knowledge store, unobserved here).  `none` models a propagating
exception from an inner LLM call. -/
def processBankerQuery (o : Oracle) (_msg : String) (remaining : List ℕ)
    (_burnt : List ℕ) (roundNum : ℕ) : Option QueryResponse :=
  match aiDecideResponseType o.intentReply with
  | none => none
  | some rtype =>
    if rtype = "OFFER" then
      let offerData := calculateBaseOffer remaining roundNum o.sentiment o.variance
      match generateBankerResponse o.genReply offerData with
      | none => none
      | some (bmsg, _echoed) =>
        some { selected_question := "Banker's offer for Round " ++ toString roundNum,
               humanized_answer := bmsg,
               offer := some offerData.offer,
               gs_round := roundNum,
               gs_remaining := remaining,
               gs_expected_value := some offerData.expectedValue,
               gs_house_edge := some offerData.houseEdge,
               gs_sentiment := some (sentimentKey o.sentiment) }
    else
      match o.convReply with
      | none => none
      | some c =>
        some { selected_question := "Banker's conversation",
               humanized_answer := String.mk (pyStrip c.toList),
               offer := none,
               gs_round := roundNum,
               gs_remaining := remaining,
               gs_expected_value := none,
               gs_house_edge := none,
               gs_sentiment := some "conversational" }

/-! ### The REST handlers of `banker_api_server.py` -/

/-- The per-game dict stored in `active_games`
(`banker_api_server.py`, `get_default_game_state`, lines 49-60). -/
structure GameData where
  round : ℕ
  remaining_cards : List ℕ
  burnt_cards : List ℕ
  selected_case : Option ℕ
  current_offer : Option ℤ
  expected_value : Option ℚ
  house_edge : Option ℚ
  status : String
deriving DecidableEq

/-- The fixed 21-amount board of `get_default_game_state`
(`banker_api_server.py`, line 53). -/
def defaultCards : List ℕ :=
  [1, 5, 10, 25, 50, 100, 500, 1000, 2500, 5000, 10000,
   25000, 50000, 75000, 100000, 200000, 300000, 400000, 500000, 750000, 1000000]

/-- The default state of a new game: round 1, the fixed 21-amount board,
nothing burnt, no offer, active. -/
def defaultGameState : GameData :=
  { round := 1,
    remaining_cards := defaultCards,
    burnt_cards := [],
    selected_case := none,
    current_offer := none,
    expected_value := none,
    house_edge := none,
    status := "active" }

/-- A banker-facing message, abstracting the f-strings of the handlers:
each constructor records the data interpolated into the corresponding
format string.  The `deal_accepted` text interpolates the standing offer
with `f"{offer_amount:,}"`; in the source this formatting RAISES a
`TypeError` when `current_offer` is `None` (the `dict.get(..., 0)`
default never fires because the key is always present, holding `None`),
so that case never reaches this constructor. -/
inductive BankerMsg
  | offerAnnouncement (round : ℕ) (amount : ℤ) (blurb : String)
  | conversation (blurb : String)
  | dealAccepted (amount : ℤ)
  | dealRejected
  | plain (s : String)
deriving DecidableEq

/-- One entry of the `game_messages` journal (timestamps are real time
and are not modelled). -/
inductive JEntry
  | user (text : String)
  | banker (msg : BankerMsg) (mtype : String)
deriving DecidableEq

/-- The in-memory storage slot for one game identifier: the
`active_games` entry (if any) and the `game_messages` journal. -/
structure ChatState where
  game : Option GameData
  journal : List JEntry
deriving DecidableEq

/-- `api_models.GameState`: the pydantic response model of the
snapshot.  Its REQUIRED fields are `remaining_boxes` and `burnt_boxes`
(lines 10-11 of `api_models.py`, no defaults) — not the
`remaining_cards`/`burnt_cards` keywords that every construction site
in `banker_api_server.py` passes. -/
structure GameStateModel where
  game_id : String
  round : ℕ
  remaining_boxes : List ℕ
  burnt_boxes : List ℕ
  selected_box : Option ℕ := none
  current_offer : Option ℤ := none
  expected_value : Option ℤ := none
  house_edge : Option ℚ := none
  status : String
  entry_fee_paid : Bool := false
  max_offer_limit : ℤ := 165
deriving DecidableEq

/-- `create_game_state_response` (`banker_api_server.py`, lines 62-74):
builds the `GameState` snapshot with the keyword arguments
`remaining_cards=` and `burnt_cards=`; `api_models.GameState` requires
`remaining_boxes` and `burnt_boxes`, which are never supplied, so the
pydantic construction raises `ValidationError` on every call and never
produces a value — modelled as `none`. -/
def create_game_state_response (_game_id : String) (_gd : GameData) :
    Option GameStateModel := none

/-- The inline `GameState(game_id=..., round=0, remaining_cards=[],
burnt_cards=[], status="error")` constructions of the error paths
(`banker_api_server.py`, lines 131, 147, 234, 248, 295): the same wrong
keywords for the required `remaining_boxes`/`burnt_boxes`, so they
raise `ValidationError` too — modelled as `none`. -/
def errorGameState : Option GameStateModel := none

/-- `BankerResponse` (`api_models.py`): the response payload of the chat
and update endpoints; `message_type` defaults to `"text"`. -/
structure BankerResponseM where
  message : BankerMsg
  offer : Option ℤ := none
  game_state : GameStateModel
  message_type : String := "text"
  sentiment : Option String := none
deriving DecidableEq

/-- `ChatResponse` (`api_models.py`): `success` defaults to true and
`error` to absent. -/
structure ChatResponseM where
  banker_response : BankerResponseM
  success : Bool := true
  error : Option String := none
deriving DecidableEq

/-- The deal phrases of `chat_with_banker`, line 175. -/
def dealPhrases : List String :=
  ["accept", "yes", "take it", "i\x27ll take it", "agreed", "i accept",
   "deal accepted", "take the deal"]

/-- The rejection phrases of `chat_with_banker`, line 176. -/
def rejectPhrases : List String :=
  ["no deal", "reject", "pass", "no thanks", "decline", "not interested"]

/-- Line 176: the lowered message contains a rejection phrase. -/
def rejectsDeal (msg : String) : Bool :=
  rejectPhrases.any (fun p => isSubstring p.toList (pyLower msg))

/-- Line 183: the lowered message contains a deal phrase. -/
def acceptsDeal (msg : String) : Bool :=
  dealPhrases.any (fun p => isSubstring p.toList (pyLower msg))

/-- Models the response delivery of `chat_with_banker`, lines 216-238:
by the time the `BankerResponse` of line 217 requests its `GameState`
snapshot, the state mutations and journal appends of the branch have
already been applied; `create_game_state_response` raises
`ValidationError`, control reaches the except block (lines 229-238),
whose own inline `GameState` (line 234) raises again, so the exception
propagates out of the handler: the state mutations stand but the caller
receives no `ChatResponse` at all.  The `some` branch is the response
the source would deliver, were the snapshot constructible. -/
def deliverChat (st : ChatState) (bm : BankerMsg) (offer : Option ℤ)
    (gd : GameData) (mtype : String) (sent : Option String) :
    ChatState × Option ChatResponseM :=
  match create_game_state_response "" gd with
  | none => (st, none)
  | some gs =>
    (st,
     some
       { banker_response :=
           { message := bm, offer := offer, game_state := gs,
             message_type := mtype, sentiment := sent } })

/-- `chat_with_banker` (`banker_api_server.py`, lines 137-238) for one
game identifier: the registry lookup is modelled by whether `st.game`
is present.  Mutations the source applies before an exception is raised
(the journal appends of lines 156 and 209-214, the status/offer/round
updates of lines 178-200) persist, matching the in-place dict updates;
but every path ends in a `GameState` construction — line 147, line 64
via `create_game_state_response`, or line 234 in the except block —
that raises `ValidationError`, so the handler never returns a
`ChatResponse` (second component `none` throughout). -/
def chatStep (st : ChatState) (msg : String) (o : Oracle) :
    ChatState × Option ChatResponseM :=
  match st.game with
  | none =>
    -- lines 143-151: the "Game not found" ChatResponse needs an inline
    -- error GameState; its construction raises, and the except block
    -- (line 234) raises again: nothing is returned.
    (match errorGameState with
     | none => (st, none)
     | some gs =>
       (st,
        some
          { banker_response :=
              { message := .plain "Game not found. Please start a new game.",
                game_state := gs },
            success := false, error := some "Game not found" }))
  | some gd =>
    let j1 := st.journal ++ [JEntry.user msg]
    match processBankerQuery o msg gd.remaining_cards gd.burnt_cards gd.round with
    | none =>
      -- the LLM exception reaches the except block (lines 229-238),
      -- whose GameState construction raises again: nothing returned.
      (match errorGameState with
       | none => (⟨some gd, j1⟩, none)
       | some gs =>
         (⟨some gd, j1⟩,
          some
            { banker_response :=
                { message :=
                    .plain "I apologize, but I encountered an error processing your request.",
                  game_state := gs },
              success := false, error := some "Failed to process message" }))
    | some resp =>
      if rejectsDeal msg then
        let gd2 := { gd with status := "completed" }
        deliverChat ⟨some gd2, j1 ++ [.banker .dealRejected "game_over"]⟩
          .dealRejected gd2.current_offer gd2 "game_over" resp.gs_sentiment
      else if acceptsDeal msg then
        match gd.current_offer with
        | none =>
          -- `f"${offer_amount:,}"` raises `TypeError` on `None` (the
          -- `dict.get(..., 0)` default never fires: the key is always
          -- present holding `None`); the status assignment of line 187
          -- is never reached, and the except block (line 234) raises
          -- again: nothing returned.
          (match errorGameState with
           | none => (⟨some gd, j1⟩, none)
           | some gs =>
             (⟨some gd, j1⟩,
              some
                { banker_response :=
                    { message :=
                        .plain "I apologize, but I encountered an error processing your request.",
                      game_state := gs },
                  success := false, error := some "Failed to process message" }))
        | some n =>
          let gd2 := { gd with status := "completed" }
          deliverChat ⟨some gd2, j1 ++ [.banker (.dealAccepted n) "deal_accepted"]⟩
            (.dealAccepted n) gd2.current_offer gd2 "deal_accepted" resp.gs_sentiment
      else
        match resp.offer with
        | some amt =>
          let gd2 :=
            { gd with
              current_offer := some amt,
              expected_value := resp.gs_expected_value,
              house_edge := resp.gs_house_edge,
              round := resp.gs_round }
          deliverChat
            ⟨some gd2,
             j1 ++ [.banker (.offerAnnouncement resp.gs_round amt resp.humanized_answer)
               "offer"]⟩
            (.offerAnnouncement resp.gs_round amt resp.humanized_answer)
            gd2.current_offer gd2 "offer" resp.gs_sentiment
        | none =>
          deliverChat
            ⟨some gd, j1 ++ [.banker (.conversation resp.humanized_answer) "conversation"]⟩
            (.conversation resp.humanized_answer)
            gd.current_offer gd "conversation" resp.gs_sentiment

/-- `StartGameRequest` (`api_models.py`): the caller supplies a
`game_id` and a `game_state`; the handler reads neither. -/
structure StartGameRequestM where
  game_id : String
  game_state : GameData
deriving DecidableEq

/-- `StartGameResponse` (`api_models.py`). -/
structure StartGameResponseM where
  game_id : String
  game_state : GameStateModel
  banker_message : BankerMsg
  success : Bool := true
  error : Option String := none
deriving DecidableEq

/-- Python truthiness of `response.get('offer')` as used by
`"offer" if response.get('offer') else "conversation"`
(`banker_api_server.py`, lines 116 and 285): `None` and `0` are falsy. -/
def pyTruthyOffer : Option ℤ → Bool
  | some a => a ≠ 0
  | none => false

/-- `start_game` (`banker_api_server.py`, lines 78-135).  The request is
never read; the session is stored under the fresh `str(uuid4())`
identifier (line 83, an external input, unused below because the
response carrying it is never built).  The default game state is stored
before the banker query (line 87) and kept on every path; the initial
"start game" query may immediately attach an offer (lines 104-107), and
the journal records the initial banker message (lines 112-117).  The
`StartGameResponse` construction (line 123, via
`create_game_state_response`) then raises `ValidationError`, as does
the except path's `GameState` (line 131), so the handler never returns
a response. -/
def startGame (_req : StartGameRequestM) (_freshId : String) (o : Oracle) :
    ChatState × Option StartGameResponseM :=
  let gs := defaultGameState
  match processBankerQuery o "start game" gs.remaining_cards gs.burnt_cards gs.round with
  | none =>
    (match errorGameState with
     | none => (⟨some gs, []⟩, none)
     | some g =>
       (⟨some gs, []⟩,
        some
          { game_id := "", game_state := g, banker_message := .plain "",
            success := false, error := some "Failed to start game" }))
  | some resp =>
    match resp.offer with
    | some amt =>
      let gs2 :=
        { gs with
          current_offer := some amt,
          expected_value := resp.gs_expected_value,
          house_edge := resp.gs_house_edge }
      let st2 : ChatState :=
        ⟨some gs2,
         [.banker (.offerAnnouncement resp.gs_round amt resp.humanized_answer)
           (if pyTruthyOffer resp.offer then "offer" else "conversation")]⟩
      (match create_game_state_response "" gs2 with
       | none => (st2, none)
       | some g =>
         (st2,
          some
            { game_id := "", game_state := g,
              banker_message :=
                .offerAnnouncement resp.gs_round amt resp.humanized_answer }))
    | none =>
      let st2 : ChatState :=
        ⟨some gs, [.banker (.conversation resp.humanized_answer) "conversation"]⟩
      (match create_game_state_response "" gs with
       | none => (st2, none)
       | some g =>
         (st2,
          some
            { game_id := "", game_state := g,
              banker_message := .conversation resp.humanized_answer }))

/-- `GameStateRequest` (`api_models.py`). -/
structure GameStateRequestM where
  remaining_cards : List ℕ
  burnt_cards : List ℕ
  round : ℕ
  selected_case : Option ℕ
deriving DecidableEq

/-- `update_game_state` (`banker_api_server.py`, lines 240-299).  The
stored dict is overwritten with the request's sets, round and selected
case BEFORE the banker query runs (line 255), so the overwrite persists
on every path.  No validation is performed — neither status, nor
disjointness of the sets, nor round monotonicity — and the standing
offer is only replaced when the triggered response carries a new one;
it is never cleared.  The journal is not written to.  Every response
path ends in a `GameState` construction (line 248, line 64 via
`create_game_state_response` at line 284, or line 295 in the except
block) that raises `ValidationError`, so the handler never returns a
`ChatResponse`. -/
def updateStep (st : ChatState) (req : GameStateRequestM) (o : Oracle) :
    ChatState × Option ChatResponseM :=
  match st.game with
  | none =>
    (match errorGameState with
     | none => (st, none)
     | some gs =>
       (st,
        some
          { banker_response :=
              { message := .plain "Game not found.", game_state := gs },
            success := false, error := some "Game not found" }))
  | some gd =>
    let gd1 :=
      { gd with
        remaining_cards := req.remaining_cards,
        burnt_cards := req.burnt_cards,
        round := req.round,
        selected_case := req.selected_case }
    match processBankerQuery o ("Game state updated: round " ++ toString req.round)
        req.remaining_cards req.burnt_cards req.round with
    | none =>
      (match errorGameState with
       | none => (⟨some gd1, st.journal⟩, none)
       | some gs =>
         (⟨some gd1, st.journal⟩,
          some
            { banker_response :=
                { message := .plain "Error updating game state.", game_state := gs },
              success := false, error := some "Failed to update game state" }))
    | some resp =>
      match resp.offer with
      | some amt =>
        let gd2 :=
          { gd1 with
            current_offer := some amt,
            expected_value := resp.gs_expected_value,
            house_edge := resp.gs_house_edge }
        (match create_game_state_response "" gd2 with
         | none => (⟨some gd2, st.journal⟩, none)
         | some gs =>
           (⟨some gd2, st.journal⟩,
            some
              { banker_response :=
                  { message := .offerAnnouncement resp.gs_round amt resp.humanized_answer,
                    offer := gd2.current_offer, game_state := gs,
                    message_type :=
                      if pyTruthyOffer resp.offer then "offer" else "conversation" } }))
      | none =>
        (match create_game_state_response "" gd1 with
         | none => (⟨some gd1, st.journal⟩, none)
         | some gs =>
           (⟨some gd1, st.journal⟩,
            some
              { banker_response :=
                  { message := .conversation resp.humanized_answer,
                    offer := gd1.current_offer, game_state := gs,
                    message_type := "conversation" } }))

/-! ### Shared fixtures and supporting lemmas -/

/-- An oracle whose intent classifier answers CONVERSATION and whose
conversational generator succeeds. -/
def oracleConv : Oracle :=
  { intentReply := some "CONVERSATION", sentiment := .neutral, variance := .medium,
    genReply := some none, convReply := some "Care to chat?" }

/-- An oracle whose intent classifier answers OFFER and whose generator
returns a parsed reply echoing a wrong offer number. -/
def oracleOffer : Oracle :=
  { intentReply := some "OFFER", sentiment := .neutral, variance := .medium,
    genReply := some (some ("Take my deal!", 999999)), convReply := some "hm" }

/-- An oracle every call of which raises (timeout / network error). -/
def oracleTimeout : Oracle :=
  { intentReply := none, sentiment := .neutral, variance := .medium,
    genReply := none, convReply := none }

lemma length_le_sum_of_one_le (l : List ℕ) (h : ∀ x ∈ l, 1 ≤ x) :
    l.length ≤ l.sum := by
  induction l with
  | nil => simp
  | cons a t ih =>
    have ha := h a (by simp)
    have ht := ih (fun x hx => h x (by simp [hx]))
    simp only [List.length_cons, List.sum_cons]
    omega

lemma one_le_ev {l : List ℕ} (hne : l ≠ []) (h1 : ∀ x ∈ l, 1 ≤ x) :
    1 ≤ ev l := by
  have hlen : 0 < l.length := List.length_pos.mpr hne
  have hlenQ : (0 : ℚ) < (l.length : ℚ) := by exact_mod_cast hlen
  rw [ev, one_le_div hlenQ]
  exact_mod_cast length_le_sum_of_one_le l h1

lemma houseEdgeMultiplier_cases (r : ℕ) :
    houseEdgeMultiplier r = 65/100 ∨ houseEdgeMultiplier r = 75/100 ∨
      houseEdgeMultiplier r = 85/100 := by
  by_cases h2 : r ≤ 2
  · exact Or.inl (houseEdgeMultiplier_early h2)
  · by_cases h4 : r ≤ 4
    · exact Or.inr (Or.inl (houseEdgeMultiplier_mid (by omega) h4))
    · exact Or.inr (Or.inr (houseEdgeMultiplier_late (by omega)))

lemma multiplier_product_lb (r : ℕ) (s : Sentiment) (v : Variance) :
    (5265/10000 : ℚ) ≤
      houseEdgeMultiplier r * sentimentMultiplier s * varianceMultiplier v := by
  obtain ⟨c, d, n, a⟩ := sentimentMultiplier_eval
  obtain ⟨vh, vm, vl⟩ := varianceMultiplier_eval
  rcases houseEdgeMultiplier_cases r with h | h | h <;> rw [h] <;>
    cases s <;> cases v <;>
    simp only [c, d, n, a, vh, vm, vl] <;> norm_num

lemma one_le_rawOffer (remaining : List ℕ) (r : ℕ) (s : Sentiment) (v : Variance)
    (hne : remaining ≠ []) (hpos : ∀ x ∈ remaining, 1 ≤ x) :
    1 ≤ rawOffer remaining r s v := by
  rw [rawOffer, round_eq, Int.le_floor]
  have he := one_le_ev hne hpos
  have hm := multiplier_product_lb r s v
  have hm0 : (0:ℚ) ≤ houseEdgeMultiplier r * sentimentMultiplier s * varianceMultiplier v :=
    le_trans (by norm_num) hm
  have key : houseEdgeMultiplier r * sentimentMultiplier s * varianceMultiplier v ≤
      ev remaining * (houseEdgeMultiplier r * sentimentMultiplier s * varianceMultiplier v) :=
    le_mul_of_one_le_left hm0 he
  push_cast
  ring_nf
  ring_nf at key hm
  linarith

/-- C1 (amended): for every offer computed from a non-empty remaining
set of positive amounts, the offer is a positive integer and never
exceeds EV(remaining); it is strictly below EV whenever EV > 1 (when
EV = 1 the clamp's floor at 1 makes the offer equal to EV). -/
theorem c1_offer_bounds (remaining : List ℕ) (roundNum : ℕ) (s : Sentiment) (v : Variance)
    (hne : remaining ≠ []) (hpos : ∀ x ∈ remaining, 1 ≤ x) :
    0 < (calculateBaseOffer remaining roundNum s v).offer ∧
    (((calculateBaseOffer remaining roundNum s v).offer : ℚ) ≤ ev remaining) ∧
    (1 < ev remaining →
      ((calculateBaseOffer remaining roundNum s v).offer : ℚ) < ev remaining) := by
  have he := one_le_ev hne hpos
  have hraw := one_le_rawOffer remaining roundNum s v hne hpos
  have hceil : ((⌈ev remaining⌉ : ℤ) : ℚ) < ev remaining + 1 := Int.ceil_lt_add_one _
  simp only [calculateBaseOffer, clampOffer]
  refine ⟨?_, ?_, ?_⟩
  · split_ifs with hc
    · exact lt_max_of_lt_left one_pos
    · omega
  · split_ifs with hc
    · rw [Int.cast_max]
      refine max_le (by exact_mod_cast he) ?_
      push_cast
      linarith
    · push_cast at hc ⊢
      linarith [not_le.mp hc]
  · intro h1
    split_ifs with hc
    · have h2 : (1 : ℤ) < ⌈ev remaining⌉ := Int.lt_ceil.mpr (by exact_mod_cast h1)
      have hmax : max 1 (⌈ev remaining⌉ - 1) = ⌈ev remaining⌉ - 1 := by omega
      rw [hmax]
      push_cast
      linarith
    · exact_mod_cast not_le.mp hc

/-- C1 counterexample: from the non-empty remaining set `[1]` (round 1,
neutral sentiment, medium variance) the computed offer equals EV = 1,
so the claimed strict bound `offer < EV(remaining)` fails. -/
theorem c1_cx :
    ¬ (((calculateBaseOffer [1] 1 Sentiment.neutral Variance.medium).offer : ℚ) <
        ev [1]) := by
  have hev : ev [1] = 1 := by norm_num [ev]
  have hraw : rawOffer [1] 1 .neutral .medium = 1 := by
    rw [rawOffer, hev, houseEdgeMultiplier_early (by norm_num),
      sentimentMultiplier_eval.2.2.1, varianceMultiplier_eval.2.1, round_eq]
    norm_num
  simp only [calculateBaseOffer, clampOffer, hraw, hev]
  rw [if_pos (by norm_num)]
  norm_num

/-- C1 witness: the amended bounds instantiated at `[100, 200]`,
round 1, neutral sentiment, medium variance. -/
theorem c1_offer_bounds_witness :
    0 < (calculateBaseOffer [100, 200] 1 Sentiment.neutral Variance.medium).offer ∧
    (((calculateBaseOffer [100, 200] 1 Sentiment.neutral Variance.medium).offer : ℚ) ≤
      ev [100, 200]) ∧
    (1 < ev [100, 200] →
      ((calculateBaseOffer [100, 200] 1 Sentiment.neutral Variance.medium).offer : ℚ) <
        ev [100, 200]) :=
  c1_offer_bounds [100, 200] 1 Sentiment.neutral Variance.medium (by decide)
    (by decide)

/-- C6: the configuration store maps exactly: rounds 1-2 → house-edge
multiplier 0.65, rounds 3-4 → 0.75, rounds 5 and above → 0.85;
sentiment confident → 1.05, desperate → 0.95, neutral → 1.00,
aggressive → 0.90; variance high → 0.90, medium → 1.00, low → 1.05. -/
theorem c6_configuration_tables :
    (∀ r : ℕ, 1 ≤ r → r ≤ 2 → houseEdgeMultiplier r = 65/100) ∧
    (∀ r : ℕ, 3 ≤ r → r ≤ 4 → houseEdgeMultiplier r = 75/100) ∧
    (∀ r : ℕ, 5 ≤ r → houseEdgeMultiplier r = 85/100) ∧
    sentimentMultiplier .confident = 105/100 ∧
    sentimentMultiplier .desperate = 95/100 ∧
    sentimentMultiplier .neutral = 1 ∧
    sentimentMultiplier .aggressive = 90/100 ∧
    varianceMultiplier .high = 90/100 ∧
    varianceMultiplier .medium = 1 ∧
    varianceMultiplier .low = 105/100 := by
  obtain ⟨c, d, n, a⟩ := sentimentMultiplier_eval
  obtain ⟨vh, vm, vl⟩ := varianceMultiplier_eval
  exact ⟨fun r _ h2 => houseEdgeMultiplier_early h2,
    fun r h3 h4 => houseEdgeMultiplier_mid h3 h4,
    fun r h5 => houseEdgeMultiplier_late h5,
    c, d, n, a, vh, vm, vl⟩

/-- C6 witness: the round-band mapping instantiated at rounds 2, 3
and 7. -/
theorem c6_configuration_tables_witness :
    houseEdgeMultiplier 2 = 65/100 ∧ houseEdgeMultiplier 3 = 75/100 ∧
    houseEdgeMultiplier 7 = 85/100 :=
  ⟨c6_configuration_tables.1 2 (by norm_num) (by norm_num),
   c6_configuration_tables.2.1 3 (by norm_num) (by norm_num),
   c6_configuration_tables.2.2.1 7 (by norm_num)⟩

/-! ### Concrete evaluations of the offer pipeline -/

lemma calcOffer_pair_eval :
    calculateBaseOffer [100, 200] 1 .neutral .medium =
      { offer := 98, expectedValue := 150, houseEdge := 35/100 } := by
  have hev : ev [100, 200] = 150 := by norm_num [ev]
  have hraw : rawOffer [100, 200] 1 .neutral .medium = 98 := by
    rw [rawOffer, hev, houseEdgeMultiplier_early (by norm_num),
      sentimentMultiplier_eval.2.2.1, varianceMultiplier_eval.2.1, round_eq]
    norm_num
  rw [calculateBaseOffer, hraw, hev, clampOffer, if_neg (by norm_num),
    houseEdgeMultiplier_early (by norm_num)]
  norm_num

lemma calcOffer_default_eval :
    calculateBaseOffer defaultCards 1 .neutral .medium =
      { offer := 105832, expectedValue := 3419191/21, houseEdge := 35/100 } := by
  have hev : ev defaultCards = 3419191/21 := by
    norm_num [ev, defaultCards]
  have hraw : rawOffer defaultCards 1 .neutral .medium = 105832 := by
    rw [rawOffer, hev, houseEdgeMultiplier_early (by norm_num),
      sentimentMultiplier_eval.2.2.1, varianceMultiplier_eval.2.1, round_eq]
    norm_num
  rw [calculateBaseOffer, hraw, hev, clampOffer, if_neg (by norm_num),
    houseEdgeMultiplier_early (by norm_num)]
  norm_num

lemma aiDecide_offer_label : aiDecideResponseType (some "OFFER") = some "OFFER" := by decide

lemma aiDecide_conv_of_not_offer (r : String)
    (h : pyUpper (pyStrip r.toList) ≠ "OFFER".toList) :
    ∃ rt, aiDecideResponseType (some r) = some rt ∧ rt ≠ "OFFER" := by
  rw [aiDecideResponseType]
  simp only [Bool.or_eq_true, decide_eq_true_eq]
  by_cases h2 : pyUpper (pyStrip r.toList) = "CONVERSATION".toList
  · rw [if_pos (Or.inr h2), h2]
    exact ⟨"CONVERSATION", rfl, by decide⟩
  · rw [if_neg ?_]
    · exact ⟨"CONVERSATION", rfl, by decide⟩
    · rintro (hh | hh)
      · exact h hh
      · exact h2 hh

lemma processBankerQuery_offer_shape (o : Oracle) (msg : String)
    (remaining burnt : List ℕ) (r : ℕ) (m : String) (e : ℤ)
    (hI : aiDecideResponseType o.intentReply = some "OFFER")
    (hg : o.genReply = some (some (m, e))) :
    processBankerQuery o msg remaining burnt r =
      some { selected_question := "Banker's offer for Round " ++ toString r,
             humanized_answer := m,
             offer := some (calculateBaseOffer remaining r o.sentiment o.variance).offer,
             gs_round := r, gs_remaining := remaining,
             gs_expected_value :=
               some (calculateBaseOffer remaining r o.sentiment o.variance).expectedValue,
             gs_house_edge :=
               some (calculateBaseOffer remaining r o.sentiment o.variance).houseEdge,
             gs_sentiment := some (sentimentKey o.sentiment) } := by
  rw [processBankerQuery, hI, hg]
  simp [generateBankerResponse]

lemma processBankerQuery_conv_shape (o : Oracle) (msg : String)
    (remaining burnt : List ℕ) (r : ℕ) (rt c : String)
    (hI : aiDecideResponseType o.intentReply = some rt)
    (hrt : rt ≠ "OFFER")
    (hc : o.convReply = some c) :
    processBankerQuery o msg remaining burnt r =
      some { selected_question := "Banker's conversation",
             humanized_answer := String.mk (pyStrip c.toList), offer := none,
             gs_round := r, gs_remaining := remaining, gs_expected_value := none,
             gs_house_edge := none, gs_sentiment := some "conversational" } := by
  rw [processBankerQuery, hI, hc]
  simp [hrt]

lemma processBankerQuery_none_of_intent_none (o : Oracle) (msg : String)
    (remaining burnt : List ℕ) (r : ℕ)
    (hI : aiDecideResponseType o.intentReply = none) :
    processBankerQuery o msg remaining burnt r = none := by
  rw [processBankerQuery, hI]

/-- The response `process_banker_query` produces under `oracleConv`,
for any message and game context. -/
lemma process_oracleConv (msg : String) (remaining burnt : List ℕ) (r : ℕ) :
    processBankerQuery oracleConv msg remaining burnt r =
      some { selected_question := "Banker's conversation",
             humanized_answer := "Care to chat?", offer := none,
             gs_round := r, gs_remaining := remaining, gs_expected_value := none,
             gs_house_edge := none, gs_sentiment := some "conversational" } := by
  rw [processBankerQuery_conv_shape oracleConv msg remaining burnt r "CONVERSATION"
    "Care to chat?" (by decide) (by decide) rfl,
    show String.mk (pyStrip "Care to chat?".toList) = "Care to chat?" by decide]

/-- C7: for every OFFER turn, the offer delivered by
`process_banker_query` is the one computed by the Offer Calculator, for
every possible generator behaviour — the generator's echoed number is
overwritten before use. -/
theorem c7_authoritative_offer (o : Oracle) (msg : String) (remaining burnt : List ℕ)
    (roundNum : ℕ) (resp : QueryResponse)
    (hI : aiDecideResponseType o.intentReply = some "OFFER")
    (hp : processBankerQuery o msg remaining burnt roundNum = some resp) :
    resp.offer = some (calculateBaseOffer remaining roundNum o.sentiment o.variance).offer := by
  rw [processBankerQuery, hI] at hp
  cases hg : generateBankerResponse o.genReply
      (calculateBaseOffer remaining roundNum o.sentiment o.variance) with
  | none => simp [hg] at hp
  | some pr =>
    obtain ⟨m, e⟩ := pr
    simp only [hg, reduceIte] at hp
    rw [← Option.some.inj hp]

/-- The parsed-generator response under `oracleOffer` on the `[100, 200]`
board at round 1: the echoed 999999 is replaced by the computed 98. -/
def respPairW : QueryResponse :=
  { selected_question := "Banker's offer for Round 1",
    humanized_answer := "Take my deal!",
    offer := some 98,
    gs_round := 1, gs_remaining := [100, 200],
    gs_expected_value := some 150, gs_house_edge := some (35/100),
    gs_sentiment := some "neutral" }

lemma process_oracleOffer_pair (msg : String) :
    processBankerQuery oracleOffer msg [100, 200] [] 1 = some respPairW := by
  rw [processBankerQuery_offer_shape oracleOffer msg [100, 200] [] 1
    "Take my deal!" 999999 (by decide) rfl]
  show some _ = some respPairW
  rw [show oracleOffer.sentiment = Sentiment.neutral from rfl,
    show oracleOffer.variance = Variance.medium from rfl, calcOffer_pair_eval]
  rfl

/-- C7 witness: under `oracleOffer` (which echoes 999999) on the
`[100, 200]` board at round 1 the delivered offer is the computed 98. -/
theorem c7_authoritative_offer_witness :
    respPairW.offer =
      some (calculateBaseOffer [100, 200] 1 oracleOffer.sentiment oracleOffer.variance).offer ∧
    respPairW.offer = some 98 :=
  ⟨c7_authoritative_offer oracleOffer "make me an offer" [100, 200] [] 1 respPairW
    (by decide) (process_oracleOffer_pair "make me an offer"), rfl⟩


/-! ### The handlers never deliver a response -/

lemma chatStep_no_response (st : ChatState) (msg : String) (o : Oracle) :
    (chatStep st msg o).2 = none := by
  obtain ⟨g, j⟩ := st
  cases g with
  | none => simp [chatStep, errorGameState]
  | some gd =>
    cases hp : processBankerQuery o msg gd.remaining_cards gd.burnt_cards gd.round with
    | none => simp [chatStep, hp, errorGameState]
    | some resp =>
      by_cases hrej : rejectsDeal msg
      · simp [chatStep, hp, hrej, deliverChat, create_game_state_response]
      · by_cases hacc : acceptsDeal msg
        · cases hoff : gd.current_offer with
          | none => simp [chatStep, hp, hrej, hacc, hoff, errorGameState]
          | some n =>
            simp [chatStep, hp, hrej, hacc, hoff, deliverChat, create_game_state_response]
        · cases hro : resp.offer with
          | some amt =>
            simp [chatStep, hp, hrej, hacc, hro, deliverChat, create_game_state_response]
          | none =>
            simp [chatStep, hp, hrej, hacc, hro, deliverChat, create_game_state_response]

lemma updateStep_no_response (st : ChatState) (req : GameStateRequestM) (o : Oracle) :
    (updateStep st req o).2 = none := by
  obtain ⟨g, j⟩ := st
  cases g with
  | none => simp [updateStep, errorGameState]
  | some gd =>
    cases hp : processBankerQuery o ("Game state updated: round " ++ toString req.round)
        req.remaining_cards req.burnt_cards req.round with
    | none => simp [updateStep, hp, errorGameState]
    | some resp =>
      cases hro : resp.offer with
      | some amt => simp [updateStep, hp, hro, create_game_state_response]
      | none => simp [updateStep, hp, hro, create_game_state_response]

lemma startGame_no_response (req : StartGameRequestM) (freshId : String) (o : Oracle) :
    (startGame req freshId o).2 = none := by
  cases hp : processBankerQuery o "start game" defaultGameState.remaining_cards
      defaultGameState.burnt_cards defaultGameState.round with
  | none => simp [startGame, hp, errorGameState]
  | some resp =>
    cases hro : resp.offer with
    | some amt => simp [startGame, hp, hro, create_game_state_response]
    | none => simp [startGame, hp, hro, create_game_state_response]

/-- An oracle whose intent classifier answers an out-of-protocol label. -/
def oracleGibberish : Oracle :=
  { intentReply := some "BLAH", sentiment := .neutral, variance := .medium,
    genReply := none, convReply := some "ok" }

/-- C4 (amended): a classifier reply other than the exact label OFFER is
classified as CONVERSATION, never OFFER — no offer is computed or
stored, the game record is untouched and the journal records a
conversation entry; but the turn does not complete successfully for the
caller, and a classifier timeout or error does not either: every
response construction raises `ValidationError` (the except block's own
`GameState` raises again), so no response at all is delivered. -/
theorem c4_degraded_intent (gd : GameData) (j : List JEntry) (msg : String)
    (o : Oracle) (r c : String)
    (hir : o.intentReply = some r)
    (hnot : pyUpper (pyStrip r.toList) ≠ "OFFER".toList)
    (hconv : o.convReply = some c)
    (hrej : rejectsDeal msg = false)
    (hacc : acceptsDeal msg = false) :
    (chatStep ⟨some gd, j⟩ msg o).1.game = some gd ∧
    (chatStep ⟨some gd, j⟩ msg o).1.journal =
      j ++ [JEntry.user msg,
        JEntry.banker (.conversation (String.mk (pyStrip c.toList))) "conversation"] ∧
    (chatStep ⟨some gd, j⟩ msg o).2 = none := by
  obtain ⟨rt, hI, hrtne⟩ := aiDecide_conv_of_not_offer r hnot
  rw [← hir] at hI
  have hp := processBankerQuery_conv_shape o msg gd.remaining_cards gd.burnt_cards
    gd.round rt c hI hrtne hconv
  refine ⟨?_, ?_, chatStep_no_response _ _ _⟩ <;>
    simp [chatStep, hp, hrej, hacc, deliverChat, create_game_state_response]

/-- C4 witness: an out-of-protocol classifier reply ("BLAH") on a fresh
game with the message "anything": the state records a CONVERSATION
turn and nothing is delivered. -/
theorem c4_degraded_intent_witness :
    (chatStep ⟨some defaultGameState, []⟩ "anything" oracleGibberish).1.game =
      some defaultGameState ∧
    (chatStep ⟨some defaultGameState, []⟩ "anything" oracleGibberish).1.journal =
      [] ++ [JEntry.user "anything",
        JEntry.banker (.conversation (String.mk (pyStrip "ok".toList))) "conversation"] ∧
    (chatStep ⟨some defaultGameState, []⟩ "anything" oracleGibberish).2 = none :=
  c4_degraded_intent defaultGameState [] "anything" oracleGibberish "BLAH" "ok"
    rfl (by decide) rfl (by decide) (by decide)

/-- C4 counterexample: neither degraded-signal case completes
successfully for the caller — with an out-of-protocol label the turn is
classified as CONVERSATION but delivers nothing, and with a timed-out
classifier nothing is delivered either — refuting "still completes
successfully for the caller (no error surfaced)". -/
theorem c4_cx :
    (chatStep ⟨some defaultGameState, []⟩ "anything" oracleGibberish).2 = none ∧
    (chatStep ⟨some defaultGameState, []⟩ "anything" oracleTimeout).2 = none := by
  decide

/-- A running game with a standing offer of 50000. -/
def gdActiveOffer : GameData := { defaultGameState with current_offer := some 50000 }

/-- C2 (amended): an accepting chat message on an existing session is
processed whenever the banker query succeeds and `current_offer` is
present — REGARDLESS of the session's status: the stored session
transitions to completed and the journal's payout entry announces
exactly the standing offer, which is left unchanged, so a second
acceptance is processed again and announces the same amount (no
`InvalidTransition` exists).  The caller, however, never receives a
success response: the response construction raises `ValidationError`
on every invocation, so nothing is delivered. -/
theorem c2_accept_semantics (gd : GameData) (j : List JEntry) (msg : String)
    (o : Oracle) (n : ℤ) (resp : QueryResponse)
    (hoffer : gd.current_offer = some n)
    (hp : processBankerQuery o msg gd.remaining_cards gd.burnt_cards gd.round = some resp)
    (hacc : acceptsDeal msg = true)
    (hrej : rejectsDeal msg = false) :
    (chatStep ⟨some gd, j⟩ msg o).1.game = some { gd with status := "completed" } ∧
    (chatStep ⟨some gd, j⟩ msg o).1.journal =
      j ++ [JEntry.user msg, JEntry.banker (.dealAccepted n) "deal_accepted"] ∧
    (chatStep ⟨some gd, j⟩ msg o).2 = none ∧
    (chatStep (chatStep ⟨some gd, j⟩ msg o).1 msg o).1.game =
      some { gd with status := "completed" } ∧
    (chatStep (chatStep ⟨some gd, j⟩ msg o).1 msg o).1.journal =
      j ++ [JEntry.user msg, JEntry.banker (.dealAccepted n) "deal_accepted",
        JEntry.user msg, JEntry.banker (.dealAccepted n) "deal_accepted"] ∧
    (chatStep (chatStep ⟨some gd, j⟩ msg o).1 msg o).2 = none := by
  have hstep : ∀ (gd' : GameData) (j' : List JEntry),
      gd'.remaining_cards = gd.remaining_cards →
      gd'.burnt_cards = gd.burnt_cards → gd'.round = gd.round →
      gd'.current_offer = some n →
      chatStep ⟨some gd', j'⟩ msg o =
        (⟨some { gd' with status := "completed" },
          j' ++ [JEntry.user msg, JEntry.banker (.dealAccepted n) "deal_accepted"]⟩,
         none) := by
    intro gd' j' h1 h2 h3 h4
    have hp' : processBankerQuery o msg gd'.remaining_cards gd'.burnt_cards gd'.round =
        some resp := by rw [h1, h2, h3]; exact hp
    simp only [chatStep]
    rw [hp']
    simp [hrej, hacc, h4, deliverChat, create_game_state_response]
  rw [hstep gd j rfl rfl rfl hoffer]
  rw [hstep { gd with status := "completed" } _ rfl rfl rfl hoffer]
  exact ⟨rfl, rfl, rfl, rfl, by simp, rfl⟩

/-- C2 witness: a session with a 50000 standing offer accepts
"i accept" (under a conversational oracle): the state completes with a
payout entry of exactly 50000, the second acceptance is processed again
with the same amount, and neither call delivers a response. -/
theorem c2_accept_semantics_witness :
    (chatStep ⟨some gdActiveOffer, []⟩ "i accept" oracleConv).1.game =
      some { gdActiveOffer with status := "completed" } ∧
    (chatStep ⟨some gdActiveOffer, []⟩ "i accept" oracleConv).1.journal =
      [] ++ [JEntry.user "i accept", JEntry.banker (.dealAccepted 50000) "deal_accepted"] ∧
    (chatStep ⟨some gdActiveOffer, []⟩ "i accept" oracleConv).2 = none ∧
    (chatStep (chatStep ⟨some gdActiveOffer, []⟩ "i accept" oracleConv).1 "i accept"
      oracleConv).1.game = some { gdActiveOffer with status := "completed" } ∧
    (chatStep (chatStep ⟨some gdActiveOffer, []⟩ "i accept" oracleConv).1 "i accept"
      oracleConv).1.journal =
      [] ++ [JEntry.user "i accept", JEntry.banker (.dealAccepted 50000) "deal_accepted",
        JEntry.user "i accept", JEntry.banker (.dealAccepted 50000) "deal_accepted"] ∧
    (chatStep (chatStep ⟨some gdActiveOffer, []⟩ "i accept" oracleConv).1 "i accept"
      oracleConv).2 = none :=
  c2_accept_semantics gdActiveOffer [] "i accept" oracleConv 50000 _ rfl
    (process_oracleConv "i accept" gdActiveOffer.remaining_cards
      gdActiveOffer.burnt_cards gdActiveOffer.round) (by decide) (by decide)

/-- C2 counterexample: even the legal acceptance (active session,
standing offer) never succeeds for the caller — no response is
delivered — and a second acceptance on the then-completed session is
processed again (a second payout journal entry) instead of failing with
`InvalidTransition`. -/
theorem c2_cx :
    (chatStep ⟨some gdActiveOffer, []⟩ "i accept" oracleConv).2 = none ∧
    (chatStep (chatStep ⟨some gdActiveOffer, []⟩ "i accept" oracleConv).1 "i accept"
      oracleConv).1.journal =
      [JEntry.user "i accept", JEntry.banker (.dealAccepted 50000) "deal_accepted",
       JEntry.user "i accept", JEntry.banker (.dealAccepted 50000) "deal_accepted"] := by
  decide

/-- C3 (amended): a session's status never leaves "completed" — every
chat turn and every state update on a completed session yields a
session that is still completed — but such attempts are NOT rejected
with a typed error: no status check exists, they are processed and
applied like any other request, and nothing at all is reported to the
caller (every response construction raises `ValidationError`). -/
theorem c3_terminal_preserved (gd : GameData) (j : List JEntry) (msg : String)
    (req : GameStateRequestM) (o : Oracle)
    (h : gd.status = "completed") :
    (∃ gd', (chatStep ⟨some gd, j⟩ msg o).1.game = some gd' ∧ gd'.status = "completed") ∧
    (∃ gd'', (updateStep ⟨some gd, j⟩ req o).1.game = some gd'' ∧
      gd''.status = "completed") ∧
    (chatStep ⟨some gd, j⟩ msg o).2 = none ∧
    (updateStep ⟨some gd, j⟩ req o).2 = none := by
  refine ⟨?_, ?_, chatStep_no_response _ _ _, updateStep_no_response _ _ _⟩
  · cases hp : processBankerQuery o msg gd.remaining_cards gd.burnt_cards gd.round with
    | none => exact ⟨gd, by simp [chatStep, hp, errorGameState], h⟩
    | some resp =>
      by_cases hrej : rejectsDeal msg
      · exact ⟨{ gd with status := "completed" },
          by simp [chatStep, hp, hrej, deliverChat, create_game_state_response], rfl⟩
      · by_cases hacc : acceptsDeal msg
        · cases hoff : gd.current_offer with
          | none =>
            exact ⟨gd, by simp [chatStep, hp, hrej, hacc, hoff, errorGameState], h⟩
          | some n =>
            exact ⟨{ gd with status := "completed" },
              by simp [chatStep, hp, hrej, hacc, hoff, deliverChat,
                create_game_state_response], rfl⟩
        · cases hro : resp.offer with
          | some amt =>
            exact ⟨{ gd with
                current_offer := some amt,
                expected_value := resp.gs_expected_value,
                house_edge := resp.gs_house_edge, round := resp.gs_round },
              by simp [chatStep, hp, hrej, hacc, hro, deliverChat,
                create_game_state_response], h⟩
          | none =>
            exact ⟨gd, by simp [chatStep, hp, hrej, hacc, hro, deliverChat,
              create_game_state_response], h⟩
  · cases hp : processBankerQuery o ("Game state updated: round " ++ toString req.round)
        req.remaining_cards req.burnt_cards req.round with
    | none =>
      exact ⟨{ gd with
          remaining_cards := req.remaining_cards,
          burnt_cards := req.burnt_cards, round := req.round,
          selected_case := req.selected_case },
        by simp [updateStep, hp, errorGameState], h⟩
    | some resp =>
      cases hro : resp.offer with
      | some amt =>
        exact ⟨{ gd with
            remaining_cards := req.remaining_cards,
            burnt_cards := req.burnt_cards, round := req.round,
            selected_case := req.selected_case, current_offer := some amt,
            expected_value := resp.gs_expected_value,
            house_edge := resp.gs_house_edge },
          by simp [updateStep, hp, hro, create_game_state_response], h⟩
      | none =>
        exact ⟨{ gd with
            remaining_cards := req.remaining_cards,
            burnt_cards := req.burnt_cards, round := req.round,
            selected_case := req.selected_case },
          by simp [updateStep, hp, hro, create_game_state_response], h⟩

/-- A completed session that still records a standing offer of 500. -/
def gdCompleted : GameData :=
  { defaultGameState with status := "completed", round := 5, current_offer := some 500 }

/-- C3 witness: the preservation statement instantiated on a completed
session, a chat message and a state-update request. -/
theorem c3_terminal_preserved_witness :
    (∃ gd', (chatStep ⟨some gdCompleted, []⟩ "hello" oracleConv).1.game = some gd' ∧
      gd'.status = "completed") ∧
    (∃ gd'', (updateStep ⟨some gdCompleted, []⟩
        ⟨[1, 2], [3], 6, none⟩ oracleConv).1.game = some gd'' ∧
      gd''.status = "completed") ∧
    (chatStep ⟨some gdCompleted, []⟩ "hello" oracleConv).2 = none ∧
    (updateStep ⟨some gdCompleted, []⟩ ⟨[1, 2], [3], 6, none⟩ oracleConv).2 = none :=
  c3_terminal_preserved gdCompleted [] "hello" ⟨[1, 2], [3], 6, none⟩ oracleConv rfl

/-- C3 counterexample: an acceptance on an already-completed session is
not rejected with a typed `InvalidTransition`-class error reported to
the caller: it is applied — a payout journal entry is appended, so the
session state changes — and nothing at all is reported. -/
theorem c3_cx :
    (chatStep ⟨some gdCompleted, []⟩ "i accept" oracleConv).1.journal =
      [JEntry.user "i accept", JEntry.banker (.dealAccepted 500) "deal_accepted"] ∧
    (chatStep ⟨some gdCompleted, []⟩ "i accept" oracleConv).2 = none := by
  decide

/-- A state-update request that overlaps the sets and decreases the
round: `[1, 2] ∩ [2, 3] ≠ ∅` and round 1 < 5. -/
def reqBad : GameStateRequestM :=
  { remaining_cards := [1, 2], burnt_cards := [2, 3], round := 1, selected_case := none }

/-- C5 (amended): the update endpoint performs no validation — neither
status, nor disjointness of the sets, nor round monotonicity — and
installs the request's sets and round verbatim on any existing session;
`current_offer` is not among the replaced fields, so the standing offer
is never cleared (it is only overwritten when the triggered banker
response carries a new offer), and a subsequent acceptance is processed
against the stale offer instead of failing with `InvalidState`.  No
invocation delivers a response: the response construction raises
`ValidationError`. -/
theorem c5_update_unvalidated (gd : GameData) (j : List JEntry) (req : GameStateRequestM)
    (o : Oracle) (resp : QueryResponse)
    (hp : processBankerQuery o ("Game state updated: round " ++ toString req.round)
      req.remaining_cards req.burnt_cards req.round = some resp)
    (hno : resp.offer = none) :
    (updateStep ⟨some gd, j⟩ req o).1.game =
      some { gd with
        remaining_cards := req.remaining_cards,
        burnt_cards := req.burnt_cards, round := req.round,
        selected_case := req.selected_case } ∧
    (updateStep ⟨some gd, j⟩ req o).2 = none := by
  refine ⟨?_, updateStep_no_response _ _ _⟩
  simp [updateStep, hp, hno, create_game_state_response]

/-- C5 witness: the amended statement instantiated on the completed
session `gdCompleted` and the invalid request `reqBad`: the stale 500
offer survives in the installed record. -/
theorem c5_update_unvalidated_witness :
    (updateStep ⟨some gdCompleted, []⟩ reqBad oracleConv).1.game =
      some { gdCompleted with
        remaining_cards := reqBad.remaining_cards,
        burnt_cards := reqBad.burnt_cards, round := reqBad.round,
        selected_case := reqBad.selected_case } ∧
    (updateStep ⟨some gdCompleted, []⟩ reqBad oracleConv).2 = none :=
  c5_update_unvalidated gdCompleted [] reqBad oracleConv _
    (process_oracleConv ("Game state updated: round " ++ toString reqBad.round)
      reqBad.remaining_cards reqBad.burnt_cards reqBad.round) rfl

/-- C5 counterexample: an update with overlapping sets and a decreased
round on a completed session is installed verbatim, keeps the stale 500
offer standing, and a subsequent acceptance (with no intervening turn)
is processed against that stale offer — no `InvalidState` is produced
(nothing is delivered at all). -/
theorem c5_cx :
    (updateStep ⟨some gdCompleted, []⟩ reqBad oracleConv).1.game =
      some { gdCompleted with
        remaining_cards := [1, 2], burnt_cards := [2, 3], round := 1,
        selected_case := none } ∧
    (chatStep (updateStep ⟨some gdCompleted, []⟩ reqBad oracleConv).1 "i accept"
      oracleConv).1.journal =
      [JEntry.user "i accept", JEntry.banker (.dealAccepted 500) "deal_accepted"] ∧
    (updateStep ⟨some gdCompleted, []⟩ reqBad oracleConv).2 = none := by
  decide

/-- C8 (amended): an acceptance phrase on a session with no
`current_offer` does not complete the game with an announced $0: the
stored `None` makes the payout f-string raise `TypeError` (the
`dict.get(..., 0)` default never fires because the key is always
present), the game record — status included — is left unchanged, only
the user's journal entry persists, and the except block raises again
while building the error response, so the caller receives nothing. -/
theorem c8_accept_without_offer (gd : GameData) (j : List JEntry) (msg : String)
    (o : Oracle) (resp : QueryResponse)
    (hnone : gd.current_offer = none)
    (hp : processBankerQuery o msg gd.remaining_cards gd.burnt_cards gd.round = some resp)
    (hacc : acceptsDeal msg = true)
    (hrej : rejectsDeal msg = false) :
    (chatStep ⟨some gd, j⟩ msg o).1.game = some gd ∧
    (chatStep ⟨some gd, j⟩ msg o).1.journal = j ++ [JEntry.user msg] ∧
    (chatStep ⟨some gd, j⟩ msg o).2 = none := by
  refine ⟨?_, ?_, chatStep_no_response _ _ _⟩ <;>
    simp [chatStep, hp, hacc, hrej, hnone, errorGameState]

/-- C8 witness: the amended statement instantiated on a fresh game
(whose `current_offer` is `None`) and the message "i accept". -/
theorem c8_accept_without_offer_witness :
    (chatStep ⟨some defaultGameState, []⟩ "i accept" oracleConv).1.game =
      some defaultGameState ∧
    (chatStep ⟨some defaultGameState, []⟩ "i accept" oracleConv).1.journal =
      [] ++ [JEntry.user "i accept"] ∧
    (chatStep ⟨some defaultGameState, []⟩ "i accept" oracleConv).2 = none :=
  c8_accept_without_offer defaultGameState [] "i accept" oracleConv _ rfl
    (process_oracleConv "i accept" defaultGameState.remaining_cards
      defaultGameState.burnt_cards defaultGameState.round) (by decide) (by decide)

/-- C8 counterexample: accepting on a fresh game with no standing offer
leaves the session active and unchanged — no completion, no $0
announcement (no deal_accepted journal entry), and nothing delivered —
refuting "completed as accepted with an announced final amount of $0
rather than failing with an error". -/
theorem c8_cx :
    (chatStep ⟨some defaultGameState, []⟩ "take the deal" oracleConv).1.game =
      some defaultGameState ∧
    (chatStep ⟨some defaultGameState, []⟩ "take the deal" oracleConv).1.journal =
      [JEntry.user "take the deal"] ∧
    (chatStep ⟨some defaultGameState, []⟩ "take the deal" oracleConv).2 = none := by
  decide

/-- C9 (amended): `start_game` ignores the request entirely — any two
requests produce identical results; the stored session (created under
the externally generated fresh identifier before the banker query) has
round 1, the fixed default 21-amount board, empty burnt set and active
status; its `current_offer`, however, is not necessarily absent: it
equals the offer (if any) attached by the initial "start game" banker
query.  The handler itself never returns a `StartGameResponse`: the
response construction raises `ValidationError`, as does the except
path. -/
theorem c9_start_ignores_request (req req' : StartGameRequestM) (freshId : String)
    (o : Oracle) (resp : QueryResponse)
    (hp : processBankerQuery o "start game" defaultCards [] 1 = some resp) :
    startGame req freshId o = startGame req' freshId o ∧
    (∃ gs, (startGame req freshId o).1.game = some gs ∧
      gs.round = 1 ∧ gs.remaining_cards = defaultCards ∧ gs.burnt_cards = [] ∧
      gs.status = "active" ∧ gs.current_offer = resp.offer) ∧
    (startGame req freshId o).2 = none := by
  have hp' : processBankerQuery o "start game" defaultGameState.remaining_cards
      defaultGameState.burnt_cards defaultGameState.round = some resp := hp
  refine ⟨rfl, ?_, startGame_no_response _ _ _⟩
  cases hro : resp.offer with
  | some amt =>
    refine ⟨{ defaultGameState with
        current_offer := some amt,
        expected_value := resp.gs_expected_value,
        house_edge := resp.gs_house_edge }, ?_, rfl, rfl, rfl, rfl, by simp⟩
    simp [startGame, hp', hro, create_game_state_response]
  | none =>
    refine ⟨defaultGameState, ?_, rfl, rfl, rfl, rfl, rfl⟩
    simp [startGame, hp', hro, create_game_state_response]

/-- An arbitrary junk start request: every field is ignored. -/
def junkStart : StartGameRequestM :=
  { game_id := "ignored-id",
    game_state :=
      { round := 7, remaining_cards := [42], burnt_cards := [7],
        selected_case := some 42, current_offer := some 1, expected_value := none,
        house_edge := none, status := "weird" } }

/-- C9 witness: the amended statement instantiated on two different junk
requests under the conversational oracle (so no initial offer). -/
theorem c9_start_ignores_request_witness :
    startGame junkStart "fresh-id" oracleConv =
      startGame ⟨"other", defaultGameState⟩ "fresh-id" oracleConv ∧
    (∃ gs, (startGame junkStart "fresh-id" oracleConv).1.game = some gs ∧
      gs.round = 1 ∧ gs.remaining_cards = defaultCards ∧ gs.burnt_cards = [] ∧
      gs.status = "active" ∧ gs.current_offer = none) ∧
    (startGame junkStart "fresh-id" oracleConv).2 = none :=
  c9_start_ignores_request junkStart ⟨"other", defaultGameState⟩ "fresh-id" oracleConv _
    (process_oracleConv "start game" defaultCards [] 1)

/-- The offer response `process_banker_query` produces under
`oracleOffer` on the default board at round 1: the computed offer is
105832 and the echoed 999999 is discarded. -/
def respStartW : QueryResponse :=
  { selected_question := "Banker's offer for Round 1",
    humanized_answer := "Take my deal!",
    offer := some 105832,
    gs_round := 1, gs_remaining := defaultCards,
    gs_expected_value := some (3419191/21), gs_house_edge := some (35/100),
    gs_sentiment := some "neutral" }

lemma process_oracleOffer_default (msg : String) :
    processBankerQuery oracleOffer msg defaultCards [] 1 = some respStartW := by
  rw [processBankerQuery_offer_shape oracleOffer msg defaultCards [] 1
    "Take my deal!" 999999 (by decide) rfl]
  rw [show oracleOffer.sentiment = Sentiment.neutral from rfl,
    show oracleOffer.variance = Variance.medium from rfl, calcOffer_default_eval]
  rfl

/-- C9 counterexample: under an offer-deciding oracle the session stored
by `start_game` already carries a current offer (105832 on the default
board), refuting the claim that the created session has no current
offer. -/
theorem c9_cx :
    ∃ gs, (startGame junkStart "fresh-id" oracleOffer).1.game = some gs ∧
      gs.current_offer = some 105832 := by
  refine ⟨{ defaultGameState with
      current_offer := some 105832,
      expected_value := some (3419191/21),
      house_edge := some (35/100) }, ?_, rfl⟩
  have hp' : processBankerQuery oracleOffer "start game"
      defaultGameState.remaining_cards defaultGameState.burnt_cards
      defaultGameState.round = some respStartW :=
    process_oracleOffer_default "start game"
  simp [startGame, hp', respStartW, create_game_state_response]

/-- C10: when a message contains both a rejection phrase and an
acceptance phrase, rejection wins: the session completes via the
rejection branch — the journal records the game_over rejection entry
and no payout entry is appended — and the acceptance payout branch is
never taken: the standing offer is left unchanged in the record rather
than paid out. -/
theorem c10_reject_precedence (gd : GameData) (j : List JEntry) (msg : String)
    (o : Oracle) (resp : QueryResponse)
    (hp : processBankerQuery o msg gd.remaining_cards gd.burnt_cards gd.round = some resp)
    (hrej : rejectsDeal msg = true)
    (_hacc : acceptsDeal msg = true) :
    (chatStep ⟨some gd, j⟩ msg o).1.game = some { gd with status := "completed" } ∧
    (chatStep ⟨some gd, j⟩ msg o).1.journal =
      j ++ [JEntry.user msg, JEntry.banker .dealRejected "game_over"] := by
  constructor <;> simp [chatStep, hp, hrej, deliverChat, create_game_state_response]

/-- C10 witness: the message "i accept, no deal" contains both an
acceptance and a rejection phrase; the turn resolves as the game_over
rejection, with no payout entry. -/
theorem c10_reject_precedence_witness :
    (chatStep ⟨some gdActiveOffer, []⟩ "i accept, no deal" oracleConv).1.game =
      some { gdActiveOffer with status := "completed" } ∧
    (chatStep ⟨some gdActiveOffer, []⟩ "i accept, no deal" oracleConv).1.journal =
      [] ++ [JEntry.user "i accept, no deal", JEntry.banker .dealRejected "game_over"] :=
  c10_reject_precedence gdActiveOffer [] "i accept, no deal" oracleConv _
    (process_oracleConv "i accept, no deal" gdActiveOffer.remaining_cards
      gdActiveOffer.burnt_cards gdActiveOffer.round) (by decide) (by decide)
